import Mathlib

/-! The `commit` orchestrator of `cmd/root.go`.

`commit()` is a straight-line sequence of calls into collaborators that live in
other packages (`git`, `input`, `utils`, `fmt`, `os`, `log`).  The embedding
keeps the control flow of `commit()` as it is written and replaces every
collaborator by an oracle held in a `World`.  `commit()` has no loop and calls
each value-returning collaborator at most once, so what a collaborator answers
in one run is a function of the arguments it is called with.  Every call is
appended to a trace together with its arguments and its result; the theorems are
statements about that trace and about the way the run ends.
-/

set_option maxHeartbeats 4000000

namespace Commit

/-- A Go `error` value, represented by the text of `err.Error()`; `none` is `nil`. -/
abbrev Error := Option String

/-- Modelled from the spec: `input.TeamMember` is declared outside `cmd/root.go`;
the spec gives it an abbreviation, a name and an email. -/
structure TeamMember where
  Abbreviation : String
  Name : String
  Email : String
deriving DecidableEq, Repr

/-- Modelled from the spec: the value returned by `input.InitCommitConfig`; `commit()`
reads its fields `TeamMembersConfigPath` and `Abbreviation`. -/
structure CommitConfig where
  TeamMembersConfigPath : String
  Abbreviation : String
deriving DecidableEq, Repr

/-- Modelled from the spec: the value returned by `input.ReadState`; `commit()` reads
its fields `CurrentPair` and `CurrentScope`.  The spec stores the pair as a
sequence of abbreviations. -/
structure State where
  CurrentPair : List String
  CurrentScope : String
deriving DecidableEq, Repr

/-- The argument of a `log.Debug` / `log.Debugf` call. -/
inductive LogArg where
  | config (c : CommitConfig)
  | members (ms : List TeamMember)
  | state (s : State)
  | text (s : String)
  | format (fmt : String) (pair : List TeamMember)
deriving DecidableEq, Repr

/-- The collaborator functions `commit()` calls. -/
inductive Fn where
  | SetLevel | Debug | Exists | AreThereChanges | Println | Getenv
  | InitCommitConfig | InitTeamMembersConfig | GetTeamMemberByAbbreviation
  | GetAndSaveNewTeamMember | ReadState | Add | AnythingStaged | GetPair
  | GetCommitType | GetWithDefault | WriteState | GetNonEmpty | ReviewSummary
  | GetMultiLineInput | BuildCommitMsg | Commit | EmptyCommit
deriving DecidableEq, Repr

/-- One collaborator call: its arguments followed by what it returned. -/
inductive Event where
  | SetLevel (level : String)
  | Debug (arg : LogArg)
  | Exists (path : String) (res : Bool × Error)
  | AreThereChanges (res : Bool)
  | Println (line : String)
  | Getenv (key : String) (res : String)
  | InitCommitConfig (path : String) (res : CommitConfig × Error)
  | InitTeamMembersConfig (path : String) (res : List TeamMember × Error)
  | GetTeamMemberByAbbreviation (teamMembers : List TeamMember) (abbreviation : String)
      (res : TeamMember × Error)
  | GetAndSaveNewTeamMember (path : String) (abbreviation : String)
      (teamMembers : List TeamMember) (res : TeamMember × Error)
  | ReadState (path : String) (res : State × Error)
  | Add (a : String) (b : String)
  | AnythingStaged (res : Bool)
  | GetPair (commitConfig : CommitConfig) (previousPair : List String)
      (teamMembers : List TeamMember) (res : List TeamMember × Error)
  | GetCommitType (flag : Bool) (res : String × Error)
  | GetWithDefault (label : String) (dflt : String) (res : String × Error)
  | WriteState (path : String) (pair : List TeamMember) (scope : String) (res : Error)
  | GetNonEmpty (label : String) (res : String × Error)
  | ReviewSummary (summary : String) (res : String)
  | GetMultiLineInput (label : String) (res : String × Error)
  | BuildCommitMsg (ctype : String) (scope : String) (pair : List TeamMember)
      (summary : String) (explanation : String) (me : TeamMember) (res : String)
  | Commit (msg : String)
  | EmptyCommit (msg : String)
deriving DecidableEq, Repr

/-- The collaborator an event is a call of. -/
def Event.fn : Event → Fn
  | .SetLevel .. => .SetLevel
  | .Debug .. => .Debug
  | .Exists .. => .Exists
  | .AreThereChanges .. => .AreThereChanges
  | .Println .. => .Println
  | .Getenv .. => .Getenv
  | .InitCommitConfig .. => .InitCommitConfig
  | .InitTeamMembersConfig .. => .InitTeamMembersConfig
  | .GetTeamMemberByAbbreviation .. => .GetTeamMemberByAbbreviation
  | .GetAndSaveNewTeamMember .. => .GetAndSaveNewTeamMember
  | .ReadState .. => .ReadState
  | .Add .. => .Add
  | .AnythingStaged .. => .AnythingStaged
  | .GetPair .. => .GetPair
  | .GetCommitType .. => .GetCommitType
  | .GetWithDefault .. => .GetWithDefault
  | .WriteState .. => .WriteState
  | .GetNonEmpty .. => .GetNonEmpty
  | .ReviewSummary .. => .ReviewSummary
  | .GetMultiLineInput .. => .GetMultiLineInput
  | .BuildCommitMsg .. => .BuildCommitMsg
  | .Commit .. => .Commit
  | .EmptyCommit .. => .EmptyCommit

/-- The calls made so far, oldest first. -/
abbrev Trace := List Event

/-- Everything outside `commit()`: the four command-line flags (package variables
bound by cobra before `commit()` runs) and one oracle per collaborator: what the
collaborator returns in this run when called with the given arguments. -/
structure World where
  Verbose : Bool
  SkipGitAdd : Bool
  EmptyCommit : Bool
  Message : String
  Getenv : String → String
  Exists : String → Bool × Error
  AreThereChanges : Bool
  InitCommitConfig : String → CommitConfig × Error
  InitTeamMembersConfig : String → List TeamMember × Error
  GetTeamMemberByAbbreviation : List TeamMember → String → TeamMember × Error
  GetAndSaveNewTeamMember : String → String → List TeamMember → TeamMember × Error
  ReadState : String → State × Error
  AnythingStaged : Bool
  GetPair : CommitConfig → List String → List TeamMember → List TeamMember × Error
  GetCommitType : Bool → String × Error
  GetWithDefault : String → String → String × Error
  WriteState : String → List TeamMember → String → Error
  GetNonEmpty : String → String × Error
  ReviewSummary : String → String
  GetMultiLineInput : String → String × Error
  BuildCommitMsg : String → String → List TeamMember → String → String →
    TeamMember → String

/-- The ways a run stops before the end of `commit()`. -/
inductive Halt where
  | exit (code : Int)
  | panic (msg : String)
  | check (err : String)
deriving DecidableEq, Repr

/-- A piece of the program: from the trace so far to the extended trace and either a
value or the reason the process stopped. -/
def Prog (α : Type) : Type := Trace → Trace × Except Halt α

/-- Sequencing: the second part runs only when the first did not stop the process. -/
def Prog.bind {α β : Type} (m : Prog α) (f : α → Prog β) : Prog β := fun tr =>
  match m tr with
  | (tr1, .ok a) => f a tr1
  | (tr1, .error h) => (tr1, .error h)

instance : Monad Prog where
  pure a := fun tr => (tr, .ok a)
  bind := Prog.bind

/-- A call of a collaborator: record the call with its result, hand back the result. -/
def call {α : Type} (res : α) (record : α → Event) : Prog α := fun tr =>
  (tr ++ [record res], .ok res)

/-- A call whose result `commit()` does not use. -/
def emit (e : Event) : Prog Unit := fun tr => (tr ++ [e], .ok ())

/-- Stop the process. -/
def halt {α : Type} (h : Halt) : Prog α := fun tr => (tr, .error h)

/-- The `log.SetLevel(level)` call. -/
def log.SetLevel (level : String) : Prog Unit := emit (.SetLevel level)

/-- The `log.Debug(arg)` / `log.Debugf(fmt, arg)` calls. -/
def log.Debug (arg : LogArg) : Prog Unit := emit (.Debug arg)

/-- The `fmt.Println(line)` call. -/
def fmt.Println (line : String) : Prog Unit := emit (.Println line)

/-- The `os.Exit(code)` call. -/
def os.Exit {α : Type} (code : Int) : Prog α := halt (.exit code)

/-- The `os.Getenv(key)` call. -/
def os.Getenv (w : World) (key : String) : Prog String :=
  call (w.Getenv key) (.Getenv key)

/-- The Go builtin `panic(v)`. -/
def gopanic {α : Type} (msg : String) : Prog α := halt (.panic msg)

/-- The `utils.Exists(path)` call. -/
def utils.Exists (w : World) (path : String) : Prog (Bool × Error) :=
  call (w.Exists path) (.Exists path)

/-- Modelled from the spec: `utils.Check` is defined outside `cmd/root.go`.  On a
non-nil error it aborts the process immediately; on `nil` it returns. -/
def utils.Check (err : Error) : Prog Unit :=
  match err with
  | none => pure ()
  | some e => halt (.check e)

/-- The `git.AreThereChanges()` call. -/
def git.AreThereChanges (w : World) : Prog Bool :=
  call w.AreThereChanges .AreThereChanges

/-- The `input.InitCommitConfig(path)` call. -/
def input.InitCommitConfig (w : World) (path : String) : Prog (CommitConfig × Error) :=
  call (w.InitCommitConfig path) (.InitCommitConfig path)

/-- The `input.InitTeamMembersConfig(path)` call. -/
def input.InitTeamMembersConfig (w : World) (path : String) :
    Prog (List TeamMember × Error) :=
  call (w.InitTeamMembersConfig path) (.InitTeamMembersConfig path)

/-- The `git.GetTeamMemberByAbbreviation(teamMembers, abbreviation)` call. -/
def git.GetTeamMemberByAbbreviation (w : World) (teamMembers : List TeamMember)
    (abbreviation : String) : Prog (TeamMember × Error) :=
  call (w.GetTeamMemberByAbbreviation teamMembers abbreviation)
    (.GetTeamMemberByAbbreviation teamMembers abbreviation)

/-- The `git.GetAndSaveNewTeamMember(path, abbreviation, teamMembers)` call. -/
def git.GetAndSaveNewTeamMember (w : World) (path abbreviation : String)
    (teamMembers : List TeamMember) : Prog (TeamMember × Error) :=
  call (w.GetAndSaveNewTeamMember path abbreviation teamMembers)
    (.GetAndSaveNewTeamMember path abbreviation teamMembers)

/-- The `input.ReadState(path)` call. -/
def input.ReadState (w : World) (path : String) : Prog (State × Error) :=
  call (w.ReadState path) (.ReadState path)

/-- The `git.Add(a, b)` call; its result is not used. -/
def git.Add (a b : String) : Prog Unit := emit (.Add a b)

/-- The `git.AnythingStaged()` call. -/
def git.AnythingStaged (w : World) : Prog Bool :=
  call w.AnythingStaged .AnythingStaged

/-- The `git.GetPair(commitConfig, previousPair, teamMembers)` call. -/
def git.GetPair (w : World) (commitConfig : CommitConfig) (previousPair : List String)
    (teamMembers : List TeamMember) : Prog (List TeamMember × Error) :=
  call (w.GetPair commitConfig previousPair teamMembers)
    (.GetPair commitConfig previousPair teamMembers)

/-- The `input.GetCommitType(flag)` call. -/
def input.GetCommitType (w : World) (flag : Bool) : Prog (String × Error) :=
  call (w.GetCommitType flag) (.GetCommitType flag)

/-- The `input.GetWithDefault(label, dflt)` call. -/
def input.GetWithDefault (w : World) (label dflt : String) : Prog (String × Error) :=
  call (w.GetWithDefault label dflt) (.GetWithDefault label dflt)

/-- The `input.WriteState(path, pair, scope)` call. -/
def input.WriteState (w : World) (path : String) (pair : List TeamMember)
    (scope : String) : Prog Error :=
  call (w.WriteState path pair scope) (.WriteState path pair scope)

/-- The `input.GetNonEmpty(label)` call. -/
def input.GetNonEmpty (w : World) (label : String) : Prog (String × Error) :=
  call (w.GetNonEmpty label) (.GetNonEmpty label)

/-- The `git.ReviewSummary(summary)` call. -/
def git.ReviewSummary (w : World) (summary : String) : Prog String :=
  call (w.ReviewSummary summary) (.ReviewSummary summary)

/-- The `input.GetMultiLineInput(label)` call. -/
def input.GetMultiLineInput (w : World) (label : String) : Prog (String × Error) :=
  call (w.GetMultiLineInput label) (.GetMultiLineInput label)

/-- The `git.BuildCommitMsg(ctype, scope, pair, summary, explanation, me)` call. -/
def git.BuildCommitMsg (w : World) (ctype scope : String) (pair : List TeamMember)
    (summary explanation : String) (me : TeamMember) : Prog String :=
  call (w.BuildCommitMsg ctype scope pair summary explanation me)
    (.BuildCommitMsg ctype scope pair summary explanation me)

/-- The `git.Commit(msg)` call; its result is not used. -/
def git.Commit (msg : String) : Prog Unit := emit (.Commit msg)

/-- The `git.EmptyCommit(msg)` call; its result is not used. -/
def git.EmptyCommit (msg : String) : Prog Unit := emit (.EmptyCommit msg)

/-- The constant `CommitConfigPath`. -/
def CommitConfigPath : String := ".commit-config"

/-- The constant `StatePath`. -/
def StatePath : String := ".commit-config.state"

/-- The function `commit()` of `cmd/root.go`, statement by statement.  A Go `if`
without `else` that is followed by further statements is written
`(if c then body else pure ())`; the variables `me` and `summary`, assigned in the
branches of an `if`, are bound to the value the `if` leaves in them. -/
def commit (w : World) : Prog Unit := do
  (if w.Verbose then log.SetLevel "debug" else pure ())
  let (x, _) ← utils.Exists w ".git"
  (if !x then gopanic "not in a git dir, aborting" else pure ())
  let changes ← git.AreThereChanges w
  (if !changes && !w.EmptyCommit then do
      fmt.Println "There are no changes to add!"
      os.Exit 0
    else pure ())
  let homedir ← os.Getenv w "HOME"
  let configPath := homedir ++ "/" ++ CommitConfigPath
  let (commitConfig, err) ← input.InitCommitConfig w configPath
  utils.Check err
  log.Debug (.config commitConfig)
  let (teamMembers, err) ← input.InitTeamMembersConfig w commitConfig.TeamMembersConfigPath
  utils.Check err
  log.Debug (.members teamMembers)
  let (me, err) ← git.GetTeamMemberByAbbreviation w teamMembers commitConfig.Abbreviation
  let me ← (if err ≠ none ∧ err = some "not-found" then do
      let (newMember, err) ← git.GetAndSaveNewTeamMember w
        commitConfig.TeamMembersConfigPath commitConfig.Abbreviation teamMembers
      (if h : err.isSome then gopanic (err.get h) else pure ())
      pure newMember
    else if h : err.isSome then
      gopanic (err.get h)
    else pure me)
  let (state, err) ← input.ReadState w (homedir ++ "/" ++ StatePath)
  utils.Check err
  log.Debug (.state state)
  (if !w.EmptyCommit then do
      (if !w.SkipGitAdd then git.Add "-p" "" else pure ())
      let staged ← git.AnythingStaged w
      if !staged then do
        fmt.Println "There are no staged files."
        os.Exit 0
      else pure ()
    else pure ())
  let (pair, err) ← git.GetPair w commitConfig state.CurrentPair teamMembers
  utils.Check err
  let (ctype, err) ← input.GetCommitType w false
  utils.Check err
  let (scope, err) ← input.GetWithDefault w "Current scope" state.CurrentScope
  utils.Check err
  let err ← input.WriteState w (homedir ++ "/" ++ StatePath) pair scope
  utils.Check err
  log.Debug (.format "Pair: %v" pair)
  log.Debug (.text ("Story: " ++ scope))
  let summary ← (if w.Message = "" then do
      let (summary, err) ← input.GetNonEmpty w "Summary of your commit"
      utils.Check err
      pure summary
    else pure w.Message)
  log.Debug (.text ("Summary: " ++ summary))
  let reviewedSummary ← git.ReviewSummary w summary
  log.Debug (.text ("ReviewedSummary: " ++ reviewedSummary))
  let (explanation, err) ← input.GetMultiLineInput w "Why did you choose to do that? "
  utils.Check err
  log.Debug (.text ("Explanation: " ++ explanation))
  let commitMsg ← git.BuildCommitMsg w ctype scope pair reviewedSummary explanation me
  log.Debug (.text ("CommitMsg: " ++ commitMsg))
  if w.EmptyCommit then
    git.EmptyCommit commitMsg
  else
    git.Commit commitMsg

/-- A whole run of `commit()`: the trace of all calls and how the run ended
(`.ok ()` when `commit()` returned). -/
def run (w : World) : Trace × Except Halt Unit := commit w []

/-! ## Reading a trace -/

/-- Whether the collaborator `f` was called. -/
def invoked (f : Fn) (tr : Trace) : Bool := tr.any (fun e => e.fn == f)

/-- How many times the collaborator `f` was called. -/
def calls (f : Fn) (tr : Trace) : Nat := tr.countP (fun e => e.fn == f)

/-- The position of the first call of `f`; the length of the trace when `f` was
never called. -/
def firstCall (f : Fn) (tr : Trace) : Nat := tr.findIdx (fun e => e.fn == f)

/-- The lines written by `fmt.Println`, in order. -/
def printed (tr : Trace) : List String :=
  tr.filterMap (fun e => match e with | .Println line => some line | _ => none)

/-- The messages returned by `git.BuildCommitMsg`, in order. -/
def builtMsgs (tr : Trace) : List String :=
  tr.filterMap (fun e => match e with | .BuildCommitMsg _ _ _ _ _ _ res => some res | _ => none)

/-- The messages handed to `git.Commit`, in order. -/
def committed (tr : Trace) : List String :=
  tr.filterMap (fun e => match e with | .Commit msg => some msg | _ => none)

/-- The messages handed to `git.EmptyCommit`, in order. -/
def emptyCommitted (tr : Trace) : List String :=
  tr.filterMap (fun e => match e with | .EmptyCommit msg => some msg | _ => none)

/-- The scan behind `precededBy`; `seen` says whether `f` was already called. -/
def precededByFrom (f g : Fn) (seen : Bool) : Trace → Bool
  | [] => true
  | e :: es => (seen || !(e.fn == g)) && precededByFrom f g (seen || e.fn == f) es

/-- Every call of `g` in the trace comes after a call of `f`. -/
def precededBy (f g : Fn) (tr : Trace) : Bool := precededByFrom f g false tr

/-- The error returned by a call whose error `commit()` hands to `utils.Check`;
`none` for every other call. -/
def Event.checkedErr : Event → Error
  | .InitCommitConfig _ res => res.2
  | .InitTeamMembersConfig _ res => res.2
  | .ReadState _ res => res.2
  | .GetPair _ _ _ res => res.2
  | .GetCommitType _ res => res.2
  | .GetWithDefault _ _ res => res.2
  | .WriteState _ _ _ res => res
  | .GetNonEmpty _ res => res.2
  | .GetMultiLineInput _ res => res.2
  | _ => none

/-- The values of `me` handed to `git.BuildCommitMsg`, in order. -/
def builtFor (tr : Trace) : List TeamMember :=
  tr.filterMap (fun e => match e with | .BuildCommitMsg _ _ _ _ _ me _ => some me | _ => none)

/-- The call `e` when `c` holds, nothing otherwise. -/
def optional (c : Prop) [Decidable c] (e : Event) : Trace := if c then [e] else []

/-! ## The values and the shape of a run

Every collaborator is called at most once, with arguments fixed by the results of
the calls before it; the definitions below name those results. -/

/-- The result of `utils.Exists(".git")`. -/
def World.repo (w : World) : Bool × Error := w.Exists ".git"

/-- The result of `os.Getenv("HOME")`. -/
def World.homedir (w : World) : String := w.Getenv "HOME"

/-- The result of `input.InitCommitConfig`. -/
def World.config (w : World) : CommitConfig × Error :=
  w.InitCommitConfig (w.homedir ++ "/" ++ CommitConfigPath)

/-- The result of `input.InitTeamMembersConfig`. -/
def World.roster (w : World) : List TeamMember × Error :=
  w.InitTeamMembersConfig w.config.1.TeamMembersConfigPath

/-- The result of `git.GetTeamMemberByAbbreviation`. -/
def World.lookup (w : World) : TeamMember × Error :=
  w.GetTeamMemberByAbbreviation w.roster.1 w.config.1.Abbreviation

/-- The condition under which the current user is registered. -/
def World.notFound (w : World) : Prop :=
  w.lookup.2 ≠ none ∧ w.lookup.2 = some "not-found"

instance (w : World) : Decidable w.notFound := by
  unfold World.notFound
  exact inferInstance

/-- The result of `git.GetAndSaveNewTeamMember`. -/
def World.registered (w : World) : TeamMember × Error :=
  w.GetAndSaveNewTeamMember w.config.1.TeamMembersConfigPath w.config.1.Abbreviation
    w.roster.1

/-- The value of the variable `me` once the current user is resolved. -/
def World.me (w : World) : TeamMember :=
  if w.notFound then w.registered.1 else w.lookup.1

/-- The result of `input.ReadState`. -/
def World.state (w : World) : State × Error := w.ReadState (w.homedir ++ "/" ++ StatePath)

/-- The result of `git.GetPair`. -/
def World.pair (w : World) : List TeamMember × Error :=
  w.GetPair w.config.1 w.state.1.CurrentPair w.roster.1

/-- The result of `input.GetCommitType`. -/
def World.ctype (w : World) : String × Error := w.GetCommitType false

/-- The result of the scope prompt. -/
def World.scope (w : World) : String × Error :=
  w.GetWithDefault "Current scope" w.state.1.CurrentScope

/-- The result of `input.WriteState`. -/
def World.written (w : World) : Error :=
  w.WriteState (w.homedir ++ "/" ++ StatePath) w.pair.1 w.scope.1

/-- The result of the summary prompt. -/
def World.prompted (w : World) : String × Error := w.GetNonEmpty "Summary of your commit"

/-- The value of the variable `summary`. -/
def World.summary (w : World) : String :=
  if w.Message = "" then w.prompted.1 else w.Message

/-- The result of `git.ReviewSummary`. -/
def World.reviewed (w : World) : String := w.ReviewSummary w.summary

/-- The result of `input.GetMultiLineInput`. -/
def World.explanation (w : World) : String × Error :=
  w.GetMultiLineInput "Why did you choose to do that? "

/-- The result of `git.BuildCommitMsg`. -/
def World.commitMsg (w : World) : String :=
  w.BuildCommitMsg w.ctype.1 w.scope.1 w.pair.1 w.reviewed w.explanation.1 w.me

/-- The trace up to the repository check. -/
def World.atRepo (w : World) : Trace :=
  optional (w.Verbose = true) (Event.SetLevel "debug") ++ [Event.Exists ".git" w.repo]

/-- The trace up to the changes check. -/
def World.atChanges (w : World) : Trace :=
  w.atRepo ++ [Event.AreThereChanges w.AreThereChanges]

/-- The trace up to the loading of the configuration. -/
def World.atConfig (w : World) : Trace :=
  w.atChanges ++ [Event.Getenv "HOME" w.homedir,
    Event.InitCommitConfig (w.homedir ++ "/" ++ CommitConfigPath) w.config]

/-- The trace up to the loading of the roster. -/
def World.atRoster (w : World) : Trace :=
  w.atConfig ++ [Event.Debug (.config w.config.1),
    Event.InitTeamMembersConfig w.config.1.TeamMembersConfigPath w.roster]

/-- The trace up to the lookup of the current user. -/
def World.atLookup (w : World) : Trace :=
  w.atRoster ++ [Event.Debug (.members w.roster.1),
    Event.GetTeamMemberByAbbreviation w.roster.1 w.config.1.Abbreviation w.lookup]

/-- The trace up to the resolution of the current user. -/
def World.atSelf (w : World) : Trace :=
  w.atLookup ++ optional w.notFound
    (Event.GetAndSaveNewTeamMember w.config.1.TeamMembersConfigPath w.config.1.Abbreviation
      w.roster.1 w.registered)

/-- The trace up to the reading of the state file. -/
def World.atState (w : World) : Trace :=
  w.atSelf ++ [Event.ReadState (w.homedir ++ "/" ++ StatePath) w.state]

/-- The trace up to the staging step. -/
def World.atStaging (w : World) : Trace :=
  w.atState ++ [Event.Debug (.state w.state.1)] ++
    optional (w.EmptyCommit = false ∧ w.SkipGitAdd = false) (Event.Add "-p" "") ++
    optional (w.EmptyCommit = false) (Event.AnythingStaged w.AnythingStaged)

/-- The trace up to the pair resolution. -/
def World.atPair (w : World) : Trace :=
  w.atStaging ++ [Event.GetPair w.config.1 w.state.1.CurrentPair w.roster.1 w.pair]

/-- The trace up to the commit-type prompt. -/
def World.atType (w : World) : Trace := w.atPair ++ [Event.GetCommitType false w.ctype]

/-- The trace up to the scope prompt. -/
def World.atScope (w : World) : Trace :=
  w.atType ++ [Event.GetWithDefault "Current scope" w.state.1.CurrentScope w.scope]

/-- The trace up to the writing of the state file. -/
def World.atWrite (w : World) : Trace :=
  w.atScope ++ [Event.WriteState (w.homedir ++ "/" ++ StatePath) w.pair.1 w.scope.1 w.written]

/-- The trace up to the summary prompt. -/
def World.atSummary (w : World) : Trace :=
  w.atWrite ++ [Event.Debug (.format "Pair: %v" w.pair.1),
    Event.Debug (.text ("Story: " ++ w.scope.1))] ++
    optional (w.Message = "") (Event.GetNonEmpty "Summary of your commit" w.prompted)

/-- The trace up to the explanation prompt. -/
def World.atExplanation (w : World) : Trace :=
  w.atSummary ++ [Event.Debug (.text ("Summary: " ++ w.summary)),
    Event.ReviewSummary w.summary w.reviewed,
    Event.Debug (.text ("ReviewedSummary: " ++ w.reviewed)),
    Event.GetMultiLineInput "Why did you choose to do that? " w.explanation]

/-- The trace of a run that reaches the end of `commit()`. -/
def World.atCommit (w : World) : Trace :=
  w.atExplanation ++ [Event.Debug (.text ("Explanation: " ++ w.explanation.1)),
    Event.BuildCommitMsg w.ctype.1 w.scope.1 w.pair.1 w.reviewed w.explanation.1 w.me
      w.commitMsg,
    Event.Debug (.text ("CommitMsg: " ++ w.commitMsg))] ++
    optional (w.EmptyCommit = true) (Event.EmptyCommit w.commitMsg) ++
    optional (w.EmptyCommit = false) (Event.Commit w.commitMsg)

/-- The result of a run in closed form: the first stopping condition that holds
decides where the trace ends and how the run ends. -/
def outcome (w : World) : Trace × Except Halt Unit :=
  if (!w.repo.1) = true then
    (w.atRepo, .error (.panic "not in a git dir, aborting"))
  else if (!w.AreThereChanges && !w.EmptyCommit) = true then
    (w.atChanges ++ [Event.Println "There are no changes to add!"], .error (.exit 0))
  else if h : w.config.2.isSome then (w.atConfig, .error (.check (w.config.2.get h)))
  else if h : w.roster.2.isSome then (w.atRoster, .error (.check (w.roster.2.get h)))
  else if h : w.notFound ∧ w.registered.2.isSome then
    (w.atSelf, .error (.panic (w.registered.2.get h.2)))
  else if h : ¬ w.notFound ∧ w.lookup.2.isSome then
    (w.atSelf, .error (.panic (w.lookup.2.get h.2)))
  else if h : w.state.2.isSome then (w.atState, .error (.check (w.state.2.get h)))
  else if (!w.EmptyCommit) = true ∧ (!w.AnythingStaged) = true then
    (w.atStaging ++ [Event.Println "There are no staged files."], .error (.exit 0))
  else if h : w.pair.2.isSome then (w.atPair, .error (.check (w.pair.2.get h)))
  else if h : w.ctype.2.isSome then (w.atType, .error (.check (w.ctype.2.get h)))
  else if h : w.scope.2.isSome then (w.atScope, .error (.check (w.scope.2.get h)))
  else if h : w.written.isSome then (w.atWrite, .error (.check (w.written.get h)))
  else if h : w.Message = "" ∧ w.prompted.2.isSome then
    (w.atSummary, .error (.check (w.prompted.2.get h.2)))
  else if h : w.explanation.2.isSome then
    (w.atExplanation, .error (.check (w.explanation.2.get h)))
  else (w.atCommit, .ok ())

/-! ## How far a run got

`passedX` says that the run got past step `X` without stopping. -/

/-- The working directory is a git repository. -/
def World.passedRepo (w : World) : Prop := w.repo.1 = true

/-- There are changes, or an empty commit was asked for. -/
def World.passedChanges (w : World) : Prop :=
  w.passedRepo ∧ (w.AreThereChanges = true ∨ w.EmptyCommit = true)

/-- The configuration was loaded. -/
def World.passedConfig (w : World) : Prop := w.passedChanges ∧ w.config.2 = none

/-- The roster was loaded. -/
def World.passedRoster (w : World) : Prop := w.passedConfig ∧ w.roster.2 = none

/-- The current user was found, or was not found and then registered. -/
def World.passedSelf (w : World) : Prop :=
  w.passedRoster ∧ (w.notFound → w.registered.2 = none) ∧ (¬ w.notFound → w.lookup.2 = none)

/-- The state file was read. -/
def World.passedState (w : World) : Prop := w.passedSelf ∧ w.state.2 = none

/-- Something is staged, or an empty commit was asked for. -/
def World.passedStaging (w : World) : Prop :=
  w.passedState ∧ (w.EmptyCommit = true ∨ w.AnythingStaged = true)

/-- The pair was resolved. -/
def World.passedPair (w : World) : Prop := w.passedStaging ∧ w.pair.2 = none

/-- The commit type was chosen. -/
def World.passedType (w : World) : Prop := w.passedPair ∧ w.ctype.2 = none

/-- The scope was entered. -/
def World.passedScope (w : World) : Prop := w.passedType ∧ w.scope.2 = none

/-- The state file was written. -/
def World.passedWrite (w : World) : Prop := w.passedScope ∧ w.written = none

/-- The summary was given on the command line or entered. -/
def World.passedSummary (w : World) : Prop :=
  w.passedWrite ∧ (w.Message = "" → w.prompted.2 = none)

/-- The explanation was entered. -/
def World.passedExplanation (w : World) : Prop := w.passedSummary ∧ w.explanation.2 = none

/-! ## Example worlds -/

/-- A team member of the example roster. -/
def jd : TeamMember := ⟨"jd", "Jane Doe", "jane@example.org"⟩

/-- Another team member of the example roster. -/
def ab : TeamMember := ⟨"ab", "Al Bundy", "al@example.org"⟩

/-- A world in which every step succeeds: changes are staged, the current user `jd` is in
the roster, the prompts are answered and the defaults of the state file are accepted. -/
def demoWorld : World where
  Verbose := false
  SkipGitAdd := false
  EmptyCommit := false
  Message := ""
  Getenv := fun _ => "/home/jd"
  Exists := fun _ => (true, none)
  AreThereChanges := true
  InitCommitConfig := fun _ => (⟨"/home/jd/team.json", "jd"⟩, none)
  InitTeamMembersConfig := fun _ => ([jd, ab], none)
  GetTeamMemberByAbbreviation := fun _ _ => (jd, none)
  GetAndSaveNewTeamMember := fun _ _ _ => (jd, none)
  ReadState := fun _ => (⟨["jd", "ab"], "PROJ-42"⟩, none)
  AnythingStaged := true
  GetPair := fun _ _ _ => ([jd, ab], none)
  GetCommitType := fun _ => ("fix", none)
  GetWithDefault := fun _ dflt => (dflt, none)
  WriteState := fun _ _ _ => none
  GetNonEmpty := fun _ => ("fix login bug", none)
  ReviewSummary := fun s => s
  GetMultiLineInput := fun _ => ("it was broken", none)
  BuildCommitMsg := fun ctype scope _ summary explanation _ =>
    ctype ++ "(" ++ scope ++ "): " ++ summary ++ " | " ++ explanation

/-- The example world with a clean working tree. -/
def quietWorld : World := { demoWorld with AreThereChanges := false }

/-- The example world with a clean working tree and `--empty-commit`. -/
def emptyCommitWorld : World :=
  { demoWorld with AreThereChanges := false, EmptyCommit := true }

/-- The example world with nothing staged after `git add -p`. -/
def unstagedWorld : World := { demoWorld with AnythingStaged := false }

/-- The example world in which `jd` is not yet in the roster and registers. -/
def newcomerWorld : World :=
  { demoWorld with
    InitTeamMembersConfig := fun _ => ([ab], none)
    GetTeamMemberByAbbreviation := fun _ _ => (⟨"", "", ""⟩, some "not-found")
    GetAndSaveNewTeamMember := fun _ _ _ => (jd, none)
    GetPair := fun _ _ _ => ([jd, ab], none) }

/-- The example world in which the pair cannot be resolved. -/
def brokenPairWorld : World :=
  { demoWorld with GetPair := fun _ _ _ => ([], some "team member not found") }

/-! ## Reading a trace that has an optional call in it -/

theorem optional_true (e : Event) [Decidable True] : optional True e = [e] := by
  simp [optional]

theorem optional_false (e : Event) [Decidable False] : optional False e = [] := by
  simp [optional]

theorem mem_optional (c : Prop) [Decidable c] (e x : Event) :
    x ∈ optional c e ↔ c ∧ x = e := by
  unfold optional
  split <;> simp_all

theorem any_optional (c : Prop) [Decidable c] (e : Event) (p : Event → Bool) :
    (optional c e).any p = (decide c && p e) := by
  unfold optional
  split <;> simp_all

theorem countP_optional (c : Prop) [Decidable c] (e : Event) (p : Event → Bool) :
    (optional c e).countP p = if c ∧ p e = true then 1 else 0 := by
  unfold optional
  split <;> simp_all [List.countP_cons]

theorem filter_optional (c : Prop) [Decidable c] (e : Event) (p : Event → Bool) :
    (optional c e).filter p = if c ∧ p e = true then [e] else [] := by
  unfold optional
  split <;> simp_all [List.filter_cons]

theorem getLast?_append_cons (l : Trace) (b : Event) (l2 : Trace) :
    (l ++ b :: l2).getLast? = (b :: l2).getLast? := by
  induction l with
  | nil => rfl
  | cons a t ih =>
    cases t with
    | nil => exact List.getLast?_cons_cons
    | cons c t2 =>
      rw [List.cons_append, List.cons_append, List.getLast?_cons_cons]
      exact ih

theorem getLast?_cons_append_cons (a : Event) (l : Trace) (b : Event) (l2 : Trace) :
    (a :: (l ++ b :: l2)).getLast? = (b :: l2).getLast? :=
  getLast?_append_cons (a :: l) b l2

theorem forall_and_eq_or_imp {α : Type} {c : Prop} {b : α} {q p : α → Prop} :
    (∀ a, (c ∧ a = b) ∨ q a → p a) ↔ (c → p b) ∧ ∀ a, q a → p a := by
  constructor
  · intro h
    exact ⟨fun hc => h b (Or.inl ⟨hc, rfl⟩), fun a ha => h a (Or.inr ha)⟩
  · rintro ⟨h1, h2⟩ a (⟨hc, rfl⟩ | ha)
    · exact h1 hc
    · exact h2 a ha

theorem forall_and_eq_imp {α : Type} {c : Prop} {b : α} {p : α → Prop} :
    (∀ a, c ∧ a = b → p a) ↔ (c → p b) := by
  constructor
  · intro h hc
    exact h b ⟨hc, rfl⟩
  · rintro h a ⟨hc, rfl⟩
    exact h hc

theorem getLast?_cons_or (a : Event) (l : Trace) :
    (a :: l).getLast? = l.getLast?.or (some a) := by
  cases l with
  | nil => rfl
  | cons b t =>
    rw [List.getLast?_cons_cons]
    cases h : (b :: t).getLast? with
    | none => simp at h
    | some x => rfl

theorem getLast?_optional (c : Prop) [Decidable c] (e : Event) :
    (optional c e).getLast? = if c then some e else none := by
  unfold optional
  split <;> rfl

theorem filterMap_optional {β : Type} (c : Prop) [Decidable c] (e : Event)
    (g : Event → Option β) :
    (optional c e).filterMap g = if c then (g e).toList else [] := by
  unfold optional
  split
  · cases h : g e <;> simp [List.filterMap_cons, h]
  · rfl

theorem precededByFrom_append (f g : Fn) (seen : Bool) (a b : Trace) :
    precededByFrom f g seen (a ++ b) =
      (precededByFrom f g seen a &&
        precededByFrom f g (seen || a.any (fun e => e.fn == f)) b) := by
  induction a generalizing seen with
  | nil => simp [precededByFrom]
  | cons e es ih =>
    show ((seen || !(e.fn == g)) && precededByFrom f g (seen || e.fn == f) (es ++ b)) = _
    rw [ih]
    simp only [precededByFrom, List.any_cons, Bool.or_assoc, Bool.and_assoc]

theorem precededByFrom_optional (f g : Fn) (seen : Bool) (c : Prop) [Decidable c]
    (e : Event) :
    precededByFrom f g seen (optional c e) = (!decide c || seen || !(e.fn == g)) := by
  unfold optional
  split <;> simp_all [precededByFrom]

/-! ## Running a program on a trace -/

theorem call_bind {α β : Type} (res : α) (record : α → Event) (f : α → Prog β)
    (tr : Trace) : (call res record >>= f) tr = f res (tr ++ [record res]) := rfl

theorem emit_bind {β : Type} (e : Event) (f : Unit → Prog β) (tr : Trace) :
    (emit e >>= f) tr = f () (tr ++ [e]) := rfl

theorem halt_bind {α β : Type} (h : Halt) (f : α → Prog β) (tr : Trace) :
    ((halt h : Prog α) >>= f) tr = (tr, .error h) := rfl

theorem pure_bind_apply {α β : Type} (a : α) (f : α → Prog β) (tr : Trace) :
    ((pure a : Prog α) >>= f) tr = f a tr := rfl

theorem check_bind {β : Type} (err : Error) (f : Unit → Prog β) (tr : Trace) :
    (utils.Check err >>= f) tr =
      if h : err.isSome then (tr, .error (.check (err.get h))) else f () tr := by
  cases err <;> rfl

theorem ite_bind {α β : Type} (c : Prop) [Decidable c] (a b : Prog α) (f : α → Prog β)
    (tr : Trace) :
    ((if c then a else b) >>= f) tr = if c then (a >>= f) tr else (b >>= f) tr := by
  split <;> rfl

theorem dite_bind {α β : Type} (c : Prop) [Decidable c] (a : c → Prog α)
    (b : ¬ c → Prog α) (f : α → Prog β) (tr : Trace) :
    ((if h : c then a h else b h) >>= f) tr =
      if h : c then (a h >>= f) tr else (b h >>= f) tr := by
  split <;> rfl

theorem bind_bind {α β γ : Type} (m : Prog α) (g : α → Prog β) (f : β → Prog γ)
    (tr : Trace) : ((m >>= g) >>= f) tr = (m >>= fun a => g a >>= f) tr := by
  show Prog.bind (Prog.bind m g) f tr = Prog.bind m (fun a => Prog.bind (g a) f) tr
  unfold Prog.bind
  rcases m tr with ⟨tr1, a | a⟩ <;> rfl

theorem call_apply {α : Type} (res : α) (record : α → Event) (tr : Trace) :
    call res record tr = (tr ++ [record res], .ok res) := rfl

theorem emit_apply (e : Event) (tr : Trace) : emit e tr = (tr ++ [e], .ok ()) := rfl

theorem halt_apply {α : Type} (h : Halt) (tr : Trace) :
    (halt h : Prog α) tr = (tr, .error h) := rfl

theorem pure_apply {α : Type} (a : α) (tr : Trace) :
    (pure a : Prog α) tr = (tr, .ok a) := rfl

theorem ite_app {α : Type} (c : Prop) [Decidable c] (a b : Prog α) (tr : Trace) :
    (if c then a else b) tr = if c then a tr else b tr := by
  split <;> rfl

theorem dite_app {α : Type} (c : Prop) [Decidable c] (a : c → Prog α) (b : ¬ c → Prog α)
    (tr : Trace) : (if h : c then a h else b h) tr = if h : c then a h tr else b h tr := by
  split <;> rfl

theorem check_apply (err : Error) (tr : Trace) :
    utils.Check err tr =
      if h : err.isSome then (tr, .error (.check (err.get h))) else (tr, .ok ()) := by
  cases err <;> rfl

theorem opt_emit_bind {β : Type} (c : Prop) [Decidable c] (e : Event) (f : Unit → Prog β)
    (tr : Trace) :
    ((if c then emit e else pure ()) >>= f) tr = f () (tr ++ optional c e) := by
  unfold optional
  split
  · rfl
  · show f () tr = f () (tr ++ [])
    rw [List.append_nil]

/-! The named values, recognised in the text of `commit()`. -/

theorem fold_repo (w : World) : w.Exists ".git" = w.repo := rfl

theorem fold_homedir (w : World) : w.Getenv "HOME" = w.homedir := rfl

theorem fold_config (w : World) :
    w.InitCommitConfig (w.homedir ++ "/" ++ CommitConfigPath) = w.config := rfl

theorem fold_roster (w : World) :
    w.InitTeamMembersConfig w.config.1.TeamMembersConfigPath = w.roster := rfl

theorem fold_lookup (w : World) :
    w.GetTeamMemberByAbbreviation w.roster.1 w.config.1.Abbreviation = w.lookup := rfl

theorem fold_registered (w : World) :
    w.GetAndSaveNewTeamMember w.config.1.TeamMembersConfigPath w.config.1.Abbreviation
      w.roster.1 = w.registered := rfl

theorem fold_state (w : World) : w.ReadState (w.homedir ++ "/" ++ StatePath) = w.state := rfl

theorem fold_pair (w : World) :
    w.GetPair w.config.1 w.state.1.CurrentPair w.roster.1 = w.pair := rfl

theorem fold_ctype (w : World) : w.GetCommitType false = w.ctype := rfl

theorem fold_scope (w : World) :
    w.GetWithDefault "Current scope" w.state.1.CurrentScope = w.scope := rfl

theorem fold_written (w : World) :
    w.WriteState (w.homedir ++ "/" ++ StatePath) w.pair.1 w.scope.1 = w.written := rfl

theorem fold_prompted (w : World) : w.GetNonEmpty "Summary of your commit" = w.prompted := rfl

theorem fold_explanation (w : World) :
    w.GetMultiLineInput "Why did you choose to do that? " = w.explanation := rfl

/-- Every run has the closed form `outcome`. -/
theorem run_eq_outcome (w : World) : run w = outcome w := by
  generalize hr : outcome w = r
  simp only [run, commit]
  repeat' first
    | (simp only [log.SetLevel, log.Debug, utils.Exists, gopanic, git.AreThereChanges,
    fmt.Println, os.Exit, os.Getenv, git.Add, git.Commit, git.EmptyCommit, git.GetPair,
    git.AnythingStaged, git.BuildCommitMsg, git.ReviewSummary, git.GetAndSaveNewTeamMember,
    git.GetTeamMemberByAbbreviation, input.InitCommitConfig, input.InitTeamMembersConfig,
    input.ReadState, input.GetCommitType, input.GetWithDefault, input.WriteState,
    input.GetNonEmpty, input.GetMultiLineInput, call_bind, emit_bind, halt_bind,
    pure_bind_apply, opt_emit_bind, fold_repo, fold_homedir, fold_config,
    fold_roster, fold_lookup, fold_registered, fold_state, fold_pair, fold_ctype, fold_scope,
    fold_written, fold_prompted, fold_explanation, check_bind, bind_bind, call_apply, emit_apply,
    halt_apply, pure_apply, check_apply])
    | split
  all_goals subst hr
  all_goals simp_all [outcome, World.atCommit, World.atExplanation, World.atSummary,
    World.atWrite, World.atScope, World.atType, World.atPair, World.atStaging, World.atState,
    World.atSelf, World.atLookup, World.atRoster, World.atConfig, World.atChanges,
    World.atRepo, World.notFound, World.me, World.summary, World.reviewed, World.commitMsg,
    optional]
  all_goals by_cases hc : w.AreThereChanges = false
  all_goals simp_all

theorem get_of_eq_some {o : Error} {e : String} (h : o.isSome) (he : o = some e) :
    o.get h = e := by
  subst he
  rfl

theorem eq_none_of_not_isSome {o : Error} (h : ¬ o.isSome = true) : o = none := by
  cases o
  · rfl
  · exact absurd rfl h

/-- The fifteen ways a run can go: to prove something of every run, prove it of each. -/
theorem run_cases (w : World) (P : Trace × Except Halt Unit → Prop)
    (notRepo : w.repo.1 = false →
      P (w.atRepo, .error (.panic "not in a git dir, aborting")))
    (noChanges : w.passedRepo → w.AreThereChanges = false → w.EmptyCommit = false →
      P (w.atChanges ++ [Event.Println "There are no changes to add!"], .error (.exit 0)))
    (configErr : ∀ e, w.passedChanges → w.config.2 = some e →
      P (w.atConfig, .error (.check e)))
    (rosterErr : ∀ e, w.passedConfig → w.roster.2 = some e →
      P (w.atRoster, .error (.check e)))
    (registerErr : ∀ e, w.passedRoster → w.notFound → w.registered.2 = some e →
      P (w.atSelf, .error (.panic e)))
    (lookupErr : ∀ e, w.passedRoster → ¬ w.notFound → w.lookup.2 = some e →
      P (w.atSelf, .error (.panic e)))
    (stateErr : ∀ e, w.passedSelf → w.state.2 = some e →
      P (w.atState, .error (.check e)))
    (nothingStaged : w.passedState → w.EmptyCommit = false → w.AnythingStaged = false →
      P (w.atStaging ++ [Event.Println "There are no staged files."], .error (.exit 0)))
    (pairErr : ∀ e, w.passedStaging → w.pair.2 = some e →
      P (w.atPair, .error (.check e)))
    (typeErr : ∀ e, w.passedPair → w.ctype.2 = some e →
      P (w.atType, .error (.check e)))
    (scopeErr : ∀ e, w.passedType → w.scope.2 = some e →
      P (w.atScope, .error (.check e)))
    (writeErr : ∀ e, w.passedScope → w.written = some e →
      P (w.atWrite, .error (.check e)))
    (summaryErr : ∀ e, w.passedWrite → w.Message = "" → w.prompted.2 = some e →
      P (w.atSummary, .error (.check e)))
    (explanationErr : ∀ e, w.passedSummary → w.explanation.2 = some e →
      P (w.atExplanation, .error (.check e)))
    (finished : w.passedExplanation → P (w.atCommit, .ok ())) :
    P (run w) := by
  rw [run_eq_outcome]
  unfold outcome
  by_cases c1 : (!w.repo.1) = true
  · rw [if_pos c1]
    exact notRepo (by simpa using c1)
  rw [if_neg c1]
  have p1 : w.passedRepo := by simpa [World.passedRepo] using c1
  by_cases c2 : (!w.AreThereChanges && !w.EmptyCommit) = true
  · rw [if_pos c2]
    simp only [Bool.and_eq_true, Bool.not_eq_true'] at c2
    exact noChanges p1 c2.1 c2.2
  rw [if_neg c2]
  have p2 : w.passedChanges := by
    refine ⟨p1, ?_⟩
    cases h1 : w.AreThereChanges <;> cases h2 : w.EmptyCommit <;> simp_all
  by_cases c3 : w.config.2.isSome = true
  · rw [dif_pos c3]
    obtain ⟨e, he⟩ := Option.isSome_iff_exists.mp c3
    rw [get_of_eq_some c3 he]
    exact configErr e p2 he
  rw [dif_neg c3]
  have p3 : w.passedConfig := ⟨p2, eq_none_of_not_isSome c3⟩
  by_cases c4 : w.roster.2.isSome = true
  · rw [dif_pos c4]
    obtain ⟨e, he⟩ := Option.isSome_iff_exists.mp c4
    rw [get_of_eq_some c4 he]
    exact rosterErr e p3 he
  rw [dif_neg c4]
  have p4 : w.passedRoster := ⟨p3, eq_none_of_not_isSome c4⟩
  by_cases c5 : w.notFound ∧ w.registered.2.isSome = true
  · rw [dif_pos c5]
    obtain ⟨e, he⟩ := Option.isSome_iff_exists.mp c5.2
    rw [get_of_eq_some c5.2 he]
    exact registerErr e p4 c5.1 he
  rw [dif_neg c5]
  by_cases c6 : ¬ w.notFound ∧ w.lookup.2.isSome = true
  · rw [dif_pos c6]
    obtain ⟨e, he⟩ := Option.isSome_iff_exists.mp c6.2
    rw [get_of_eq_some c6.2 he]
    exact lookupErr e p4 c6.1 he
  rw [dif_neg c6]
  have p5 : w.passedSelf :=
    ⟨p4, fun hn => eq_none_of_not_isSome (fun h => c5 ⟨hn, h⟩),
      fun hn => eq_none_of_not_isSome (fun h => c6 ⟨hn, h⟩)⟩
  by_cases c7 : w.state.2.isSome = true
  · rw [dif_pos c7]
    obtain ⟨e, he⟩ := Option.isSome_iff_exists.mp c7
    rw [get_of_eq_some c7 he]
    exact stateErr e p5 he
  rw [dif_neg c7]
  have p6 : w.passedState := ⟨p5, eq_none_of_not_isSome c7⟩
  by_cases c8 : (!w.EmptyCommit) = true ∧ (!w.AnythingStaged) = true
  · rw [if_pos c8]
    simp only [Bool.not_eq_true'] at c8
    exact nothingStaged p6 c8.1 c8.2
  rw [if_neg c8]
  have p7 : w.passedStaging := by
    refine ⟨p6, ?_⟩
    cases h1 : w.EmptyCommit <;> cases h2 : w.AnythingStaged <;> simp_all
  by_cases c9 : w.pair.2.isSome = true
  · rw [dif_pos c9]
    obtain ⟨e, he⟩ := Option.isSome_iff_exists.mp c9
    rw [get_of_eq_some c9 he]
    exact pairErr e p7 he
  rw [dif_neg c9]
  have p8 : w.passedPair := ⟨p7, eq_none_of_not_isSome c9⟩
  by_cases c10 : w.ctype.2.isSome = true
  · rw [dif_pos c10]
    obtain ⟨e, he⟩ := Option.isSome_iff_exists.mp c10
    rw [get_of_eq_some c10 he]
    exact typeErr e p8 he
  rw [dif_neg c10]
  have p9 : w.passedType := ⟨p8, eq_none_of_not_isSome c10⟩
  by_cases c11 : w.scope.2.isSome = true
  · rw [dif_pos c11]
    obtain ⟨e, he⟩ := Option.isSome_iff_exists.mp c11
    rw [get_of_eq_some c11 he]
    exact scopeErr e p9 he
  rw [dif_neg c11]
  have p10 : w.passedScope := ⟨p9, eq_none_of_not_isSome c11⟩
  by_cases c12 : w.written.isSome = true
  · rw [dif_pos c12]
    obtain ⟨e, he⟩ := Option.isSome_iff_exists.mp c12
    rw [get_of_eq_some c12 he]
    exact writeErr e p10 he
  rw [dif_neg c12]
  have p11 : w.passedWrite := ⟨p10, eq_none_of_not_isSome c12⟩
  by_cases c13 : w.Message = "" ∧ w.prompted.2.isSome = true
  · rw [dif_pos c13]
    obtain ⟨e, he⟩ := Option.isSome_iff_exists.mp c13.2
    rw [get_of_eq_some c13.2 he]
    exact summaryErr e p11 c13.1 he
  rw [dif_neg c13]
  have p12 : w.passedSummary :=
    ⟨p11, fun hm => eq_none_of_not_isSome (fun h => c13 ⟨hm, h⟩)⟩
  by_cases c14 : w.explanation.2.isSome = true
  · rw [dif_pos c14]
    obtain ⟨e, he⟩ := Option.isSome_iff_exists.mp c14
    rw [get_of_eq_some c14 he]
    exact explanationErr e p12 he
  rw [dif_neg c14]
  exact finished ⟨p12, eq_none_of_not_isSome c14⟩

/-! ## The claims -/

/-- C1: when the working directory is a git repository, `git.AreThereChanges()` is false
and the `EmptyCommit` flag is unset, the run prints exactly "There are no changes to add!",
exits with code 0, and never calls `input.InitCommitConfig`,
`input.InitTeamMembersConfig`, `git.GetAndSaveNewTeamMember`, `input.ReadState`,
`input.WriteState`, `git.Commit` or `git.EmptyCommit`. -/
theorem no_changes_exits_zero (w : World)
    (hgit : (w.Exists ".git").1 = true)
    (hch : w.AreThereChanges = false)
    (hE : w.EmptyCommit = false) :
    (run w).2 = .error (.exit 0) ∧
    (run w).1 = optional (w.Verbose = true) (Event.SetLevel "debug") ++
      [Event.Exists ".git" (w.Exists ".git"), Event.AreThereChanges false,
       Event.Println "There are no changes to add!"] ∧
    printed (run w).1 = ["There are no changes to add!"] ∧
    ∀ f ∈ [Fn.InitCommitConfig, Fn.InitTeamMembersConfig, Fn.GetAndSaveNewTeamMember,
        Fn.ReadState, Fn.WriteState, Fn.Commit, Fn.EmptyCommit],
      invoked f (run w).1 = false := by
  refine run_cases w (fun r => run w = r → _) ?_ ?_ ?_ ?_ ?_ ?_ ?_ ?_ ?_ ?_ ?_ ?_ ?_ ?_ ?_ rfl
  all_goals intros
  all_goals intro hrun
  all_goals simp_all [World.atCommit, World.atExplanation, World.atSummary,
    World.atWrite, World.atScope, World.atType, World.atPair, World.atStaging, World.atState,
    World.atSelf, World.atLookup, World.atRoster, World.atConfig, World.atChanges,
    World.atRepo, World.passedExplanation, World.passedSummary,
    World.passedWrite, World.passedScope, World.passedType, World.passedPair,
    World.passedStaging, World.passedState, World.passedSelf, World.passedRoster,
    World.passedConfig, World.passedChanges, World.passedRepo, optional_true,
    optional_false, mem_optional, any_optional, countP_optional, filterMap_optional, World.repo, invoked, printed, Event.fn]

/-- C2: with the `EmptyCommit` flag set, `git.Add` and `git.AnythingStaged` are never
called and the message built by `git.BuildCommitMsg` goes to `git.EmptyCommit`, never to
`git.Commit`; with the flag unset the built message goes to `git.Commit`, never to
`git.EmptyCommit`.  A run reaches the commit step exactly when it returns, and then
exactly one message was built. -/
theorem empty_commit_flag_selects_path (w : World) :
    (w.EmptyCommit = true →
      invoked .Add (run w).1 = false ∧ invoked .AnythingStaged (run w).1 = false ∧
      committed (run w).1 = [] ∧ emptyCommitted (run w).1 = builtMsgs (run w).1) ∧
    (w.EmptyCommit = false →
      emptyCommitted (run w).1 = [] ∧ committed (run w).1 = builtMsgs (run w).1) ∧
    ((run w).2 = .ok () ↔ (builtMsgs (run w).1).length = 1) := by
  refine run_cases w (fun r => run w = r → _) ?_ ?_ ?_ ?_ ?_ ?_ ?_ ?_ ?_ ?_ ?_ ?_ ?_ ?_ ?_ rfl
  all_goals intros
  all_goals intro hrun
  all_goals simp_all [World.atCommit, World.atExplanation, World.atSummary,
    World.atWrite, World.atScope, World.atType, World.atPair, World.atStaging, World.atState,
    World.atSelf, World.atLookup, World.atRoster, World.atConfig, World.atChanges,
    World.atRepo, World.passedExplanation, World.passedSummary,
    World.passedWrite, World.passedScope, World.passedType, World.passedPair,
    World.passedStaging, World.passedState, World.passedSelf, World.passedRoster,
    World.passedConfig, World.passedChanges, World.passedRepo, optional_true,
    optional_false, mem_optional, any_optional, countP_optional, filterMap_optional, invoked, committed, emptyCommitted, builtMsgs, Event.fn]

/-- C3: `input.WriteState` is called only after `git.GetPair` returned without error; the
pair it is given is the pair that call returned and the scope is the string the scope
prompt `input.GetWithDefault` returned; when `git.GetPair` returns an error,
`input.WriteState` is never called. -/
theorem write_state_only_after_pair (w : World) :
    (∀ path pair scope res, Event.WriteState path pair scope res ∈ (run w).1 →
      (∃ cfg prev ms, Event.GetPair cfg prev ms (pair, none) ∈ (run w).1) ∧
      (∃ dflt, Event.GetWithDefault "Current scope" dflt (scope, none) ∈ (run w).1)) ∧
    precededBy .GetPair .WriteState (run w).1 = true ∧
    precededBy .GetWithDefault .WriteState (run w).1 = true ∧
    calls .GetPair (run w).1 ≤ 1 ∧ calls .GetWithDefault (run w).1 ≤ 1 ∧
    calls .WriteState (run w).1 ≤ 1 ∧
    (∀ cfg prev ms pair e, Event.GetPair cfg prev ms (pair, some e) ∈ (run w).1 →
      invoked .WriteState (run w).1 = false) := by
  refine run_cases w (fun r => run w = r → _) ?_ ?_ ?_ ?_ ?_ ?_ ?_ ?_ ?_ ?_ ?_ ?_ ?_ ?_ ?_ rfl
  all_goals intros
  all_goals intro hrun
  all_goals simp_all [World.atCommit, World.atExplanation, World.atSummary,
    World.atWrite, World.atScope, World.atType, World.atPair, World.atStaging, World.atState,
    World.atSelf, World.atLookup, World.atRoster, World.atConfig, World.atChanges,
    World.atRepo, World.passedExplanation, World.passedSummary,
    World.passedWrite, World.passedScope, World.passedType, World.passedPair,
    World.passedStaging, World.passedState, World.passedSelf, World.passedRoster,
    World.passedConfig, World.passedChanges, World.passedRepo, optional_true,
    optional_false, mem_optional, any_optional, countP_optional, filterMap_optional, precededBy, precededByFrom,
    precededByFrom_append, precededByFrom_optional, Prod.ext_iff, invoked, calls, Event.fn]

/-- C4: in a run that reaches `git.Commit` or `git.EmptyCommit`, `input.WriteState` was
called exactly once, after `git.GetPair` and the scope prompt `input.GetWithDefault`, and
before `git.BuildCommitMsg` and before the commit call; nothing is assumed about the pair
and scope being different from the ones read from the state file. -/
theorem write_state_once_before_commit (w : World)
    (h : invoked .Commit (run w).1 = true ∨ invoked .EmptyCommit (run w).1 = true) :
    calls .WriteState (run w).1 = 1 ∧
    calls .GetPair (run w).1 = 1 ∧ calls .GetWithDefault (run w).1 = 1 ∧
    calls .BuildCommitMsg (run w).1 = 1 ∧
    precededBy .GetPair .WriteState (run w).1 = true ∧
    precededBy .GetWithDefault .WriteState (run w).1 = true ∧
    precededBy .WriteState .BuildCommitMsg (run w).1 = true ∧
    precededBy .WriteState .Commit (run w).1 = true ∧
    precededBy .WriteState .EmptyCommit (run w).1 = true := by
  refine run_cases w (fun r => run w = r → _) ?_ ?_ ?_ ?_ ?_ ?_ ?_ ?_ ?_ ?_ ?_ ?_ ?_ ?_ ?_ rfl
  all_goals intros
  all_goals intro hrun
  all_goals simp_all [World.atCommit, World.atExplanation, World.atSummary,
    World.atWrite, World.atScope, World.atType, World.atPair, World.atStaging, World.atState,
    World.atSelf, World.atLookup, World.atRoster, World.atConfig, World.atChanges,
    World.atRepo, World.passedExplanation, World.passedSummary,
    World.passedWrite, World.passedScope, World.passedType, World.passedPair,
    World.passedStaging, World.passedState, World.passedSelf, World.passedRoster,
    World.passedConfig, World.passedChanges, World.passedRepo, optional_true,
    optional_false, mem_optional, any_optional, countP_optional, filterMap_optional, precededBy, precededByFrom,
    precededByFrom_append, precededByFrom_optional, Prod.ext_iff, invoked, calls, Event.fn]

/-- C5: when the lookup of the current user succeeds, its result is the `me` handed to
`git.BuildCommitMsg` and `git.GetAndSaveNewTeamMember` is not called; when it fails with
"not-found", `git.GetAndSaveNewTeamMember` is called with the roster file path and the
abbreviation of the configuration and with the roster, and on success its result is that
`me`; when the registration fails, or the lookup fails with another error, the run
panics without reading or writing the state file and without committing, and for another
lookup error `git.GetAndSaveNewTeamMember` is never called. -/
theorem current_user_resolution (w : World) :
    ∀ ms abbr res, Event.GetTeamMemberByAbbreviation ms abbr res ∈ (run w).1 →
      (res.2 = none →
        invoked .GetAndSaveNewTeamMember (run w).1 = false ∧
        ∀ me ∈ builtFor (run w).1, me = res.1) ∧
      (res.2 = some "not-found" →
        ∃ path cfg reg, Event.InitCommitConfig path (cfg, none) ∈ (run w).1 ∧
          abbr = cfg.Abbreviation ∧
          Event.GetAndSaveNewTeamMember cfg.TeamMembersConfigPath cfg.Abbreviation ms reg
            ∈ (run w).1 ∧
          (reg.2 = none → ∀ me ∈ builtFor (run w).1, me = reg.1) ∧
          (∀ e, reg.2 = some e →
            (run w).2 = .error (.panic e) ∧
            invoked .ReadState (run w).1 = false ∧ invoked .WriteState (run w).1 = false ∧
            invoked .Commit (run w).1 = false ∧ invoked .EmptyCommit (run w).1 = false)) ∧
      (∀ e, res.2 = some e → e ≠ "not-found" →
        (run w).2 = .error (.panic e) ∧
        invoked .GetAndSaveNewTeamMember (run w).1 = false ∧
        invoked .ReadState (run w).1 = false ∧ invoked .WriteState (run w).1 = false ∧
        invoked .Commit (run w).1 = false ∧ invoked .EmptyCommit (run w).1 = false) := by
  refine run_cases w (fun r => run w = r → _) ?_ ?_ ?_ ?_ ?_ ?_ ?_ ?_ ?_ ?_ ?_ ?_ ?_ ?_ ?_ rfl
  all_goals intros
  all_goals intro hrun
  all_goals intro ms abbr res hmem
  all_goals rw [hrun] at hmem
  all_goals simp [World.atCommit, World.atExplanation, World.atSummary, World.atWrite,
    World.atScope, World.atType, World.atPair, World.atStaging, World.atState, World.atSelf,
    World.atLookup, World.atRoster, World.atConfig, World.atChanges, World.atRepo,
    mem_optional] at hmem
  all_goals obtain ⟨rfl, rfl, rfl⟩ := hmem
  all_goals refine ⟨?_, fun herr =>
    ⟨w.homedir ++ "/" ++ CommitConfigPath, w.config.1, w.registered, ?_⟩, ?_⟩
  all_goals simp_all [World.atCommit, World.atExplanation, World.atSummary,
    World.atWrite, World.atScope, World.atType, World.atPair, World.atStaging, World.atState,
    World.atSelf, World.atLookup, World.atRoster, World.atConfig, World.atChanges,
    World.atRepo, World.passedExplanation, World.passedSummary,
    World.passedWrite, World.passedScope, World.passedType, World.passedPair,
    World.passedStaging, World.passedState, World.passedSelf, World.passedRoster,
    World.passedConfig, World.passedChanges, World.passedRepo, optional_true,
    optional_false, mem_optional, any_optional, countP_optional, filterMap_optional, precededBy, precededByFrom,
    precededByFrom_append, precededByFrom_optional, Prod.ext_iff, invoked, builtFor, World.notFound, World.me, Event.fn]
  all_goals intro e he
  all_goals simp_all

/-- C6: the message handed to `git.Commit` / `git.EmptyCommit` is
`git.BuildCommitMsg(ctype, scope, pair, git.ReviewSummary(summary), explanation, me)` for
the values returned in this run by `input.GetCommitType`, the scope prompt, `git.GetPair`
and `input.GetMultiLineInput`; `summary` is the `--message` flag when it is non-empty (and
then `input.GetNonEmpty` is not called) and the value returned by `input.GetNonEmpty`
otherwise; the reviewed summary, not the raw one, enters the message. -/
theorem commit_message_is_built (w : World) :
    ∀ msg, (Event.Commit msg ∈ (run w).1 ∨ Event.EmptyCommit msg ∈ (run w).1) →
      ∃ ctype scope pair explanation me summary,
        (∃ flag, Event.GetCommitType flag (ctype, none) ∈ (run w).1) ∧
        (∃ dflt, Event.GetWithDefault "Current scope" dflt (scope, none) ∈ (run w).1) ∧
        (∃ cfg prev ms, Event.GetPair cfg prev ms (pair, none) ∈ (run w).1) ∧
        (∃ label, Event.GetMultiLineInput label (explanation, none) ∈ (run w).1) ∧
        (w.Message ≠ "" → summary = w.Message ∧ invoked .GetNonEmpty (run w).1 = false) ∧
        (w.Message = "" → ∃ label, Event.GetNonEmpty label (summary, none) ∈ (run w).1) ∧
        Event.ReviewSummary summary (w.ReviewSummary summary) ∈ (run w).1 ∧
        Event.BuildCommitMsg ctype scope pair (w.ReviewSummary summary) explanation me msg
          ∈ (run w).1 ∧
        msg = w.BuildCommitMsg ctype scope pair (w.ReviewSummary summary) explanation me ∧
        builtMsgs (run w).1 = [msg] := by
  refine run_cases w (fun r => run w = r → _) ?_ ?_ ?_ ?_ ?_ ?_ ?_ ?_ ?_ ?_ ?_ ?_ ?_ ?_ ?_ rfl
  all_goals intros
  all_goals intro hrun
  all_goals intro msg hmsg
  all_goals refine ⟨w.ctype.1, w.scope.1, w.pair.1, w.explanation.1, w.me, w.summary, ?_⟩
  all_goals simp_all [World.atCommit, World.atExplanation, World.atSummary,
    World.atWrite, World.atScope, World.atType, World.atPair, World.atStaging, World.atState,
    World.atSelf, World.atLookup, World.atRoster, World.atConfig, World.atChanges,
    World.atRepo, World.passedExplanation, World.passedSummary,
    World.passedWrite, World.passedScope, World.passedType, World.passedPair,
    World.passedStaging, World.passedState, World.passedSelf, World.passedRoster,
    World.passedConfig, World.passedChanges, World.passedRepo, optional_true,
    optional_false, mem_optional, any_optional, countP_optional, filterMap_optional, precededBy, precededByFrom,
    precededByFrom_append, precededByFrom_optional, Prod.ext_iff, invoked, builtMsgs, World.summary, World.reviewed,
    World.commitMsg, Event.fn]
  all_goals rcases hmsg with ⟨_, rfl⟩ | ⟨_, rfl⟩
  all_goals simp

/-- C7: in a run that passes the repository and changes checks, loads configuration,
roster, current user and state without error, has `EmptyCommit` unset and finds
`git.AnythingStaged()` false, the run prints "There are no staged files." and exits with
code 0; `git.AnythingStaged` is evaluated after `git.Add("-p", "")` when `SkipGitAdd` is
unset and without any `git.Add` when it is set; `git.GetPair`, `input.WriteState`,
`git.BuildCommitMsg`, `git.Commit` and `git.EmptyCommit` are never called. -/
theorem nothing_staged_exits_zero (w : World)
    (hrepo : (w.Exists ".git").1 = true)
    (hchg : w.AreThereChanges = true)
    (hcfg : ∀ p r, Event.InitCommitConfig p r ∈ (run w).1 → r.2 = none)
    (hros : ∀ p r, Event.InitTeamMembersConfig p r ∈ (run w).1 → r.2 = none)
    (hme : ∀ ms a r, Event.GetTeamMemberByAbbreviation ms a r ∈ (run w).1 →
      r.2 = none ∨ r.2 = some "not-found")
    (hreg : ∀ p a ms r, Event.GetAndSaveNewTeamMember p a ms r ∈ (run w).1 → r.2 = none)
    (hst : ∀ p r, Event.ReadState p r ∈ (run w).1 → r.2 = none)
    (hE : w.EmptyCommit = false)
    (hstaged : w.AnythingStaged = false) :
    (run w).2 = .error (.exit 0) ∧
    printed (run w).1 = ["There are no staged files."] ∧
    (run w).1.getLast? = some (Event.Println "There are no staged files.") ∧
    (w.SkipGitAdd = false →
      (run w).1.filter (fun e => e.fn == .Add || e.fn == .AnythingStaged) =
        [Event.Add "-p" "", Event.AnythingStaged false]) ∧
    (w.SkipGitAdd = true →
      (run w).1.filter (fun e => e.fn == .Add || e.fn == .AnythingStaged) =
        [Event.AnythingStaged false]) ∧
    ∀ f ∈ [Fn.GetPair, Fn.WriteState, Fn.BuildCommitMsg, Fn.Commit, Fn.EmptyCommit],
      invoked f (run w).1 = false := by
  refine run_cases w (fun r => run w = r → _) ?_ ?_ ?_ ?_ ?_ ?_ ?_ ?_ ?_ ?_ ?_ ?_ ?_ ?_ ?_ rfl
  all_goals intros
  all_goals intro hrun
  all_goals rw [hrun] at hcfg hros hme hreg hst
  all_goals simp [World.atCommit, World.atExplanation, World.atSummary, World.atWrite,
    World.atScope, World.atType, World.atPair, World.atStaging, World.atState, World.atSelf,
    World.atLookup, World.atRoster, World.atConfig, World.atChanges, World.atRepo,
    mem_optional] at hcfg hros hme hreg hst
  all_goals simp_all [World.atCommit, World.atExplanation, World.atSummary,
    World.atWrite, World.atScope, World.atType, World.atPair, World.atStaging, World.atState,
    World.atSelf, World.atLookup, World.atRoster, World.atConfig, World.atChanges,
    World.atRepo, World.passedExplanation, World.passedSummary,
    World.passedWrite, World.passedScope, World.passedType, World.passedPair,
    World.passedStaging, World.passedState, World.passedSelf, World.passedRoster,
    World.passedConfig, World.passedChanges, World.passedRepo, optional_true,
    optional_false, mem_optional, any_optional, countP_optional, filterMap_optional, precededBy, precededByFrom,
    precededByFrom_append, precededByFrom_optional, Prod.ext_iff, World.repo, World.notFound, invoked, printed, filter_optional,
    getLast?_append_cons, getLast?_cons_append_cons, Event.fn]

/-- C8: when `input.InitCommitConfig`, `input.InitTeamMembersConfig`, `input.ReadState`,
`git.GetPair`, `input.GetCommitType`, `input.GetWithDefault`, `input.WriteState`,
`input.GetNonEmpty` or `input.GetMultiLineInput` returns a non-nil error, the run aborts
there with that error: the failing call is the last call of the run, and neither
`git.Commit` nor `git.EmptyCommit` is called. -/
theorem checked_errors_abort (w : World) :
    ∀ e ∈ (run w).1, ∀ msg, e.checkedErr = some msg →
      (run w).1.getLast? = some e ∧
      (run w).2 = .error (.check msg) ∧
      calls e.fn (run w).1 = 1 ∧
      invoked .Commit (run w).1 = false ∧ invoked .EmptyCommit (run w).1 = false := by
  refine run_cases w (fun r => run w = r → _) ?_ ?_ ?_ ?_ ?_ ?_ ?_ ?_ ?_ ?_ ?_ ?_ ?_ ?_ ?_ rfl
  all_goals intros
  all_goals intro hrun
  all_goals simp only [World.passedExplanation, World.passedSummary,
    World.passedWrite, World.passedScope, World.passedType, World.passedPair,
    World.passedStaging, World.passedState, World.passedSelf, World.passedRoster,
    World.passedConfig, World.passedChanges, World.passedRepo, World.notFound] at *
  all_goals simp [*, World.atCommit, World.atExplanation, World.atSummary,
    World.atWrite, World.atScope, World.atType, World.atPair, World.atStaging, World.atState,
    World.atSelf, World.atLookup, World.atRoster, World.atConfig, World.atChanges,
    World.atRepo, World.passedExplanation, World.passedSummary,
    World.passedWrite, World.passedScope, World.passedType, World.passedPair,
    World.passedStaging, World.passedState, World.passedSelf, World.passedRoster,
    World.passedConfig, World.passedChanges, World.passedRepo, optional_true,
    optional_false, mem_optional, any_optional, countP_optional, filterMap_optional, precededBy, precededByFrom,
    precededByFrom_append, precededByFrom_optional, Prod.ext_iff, invoked, calls, Event.checkedErr, getLast?_cons_or,
    getLast?_optional, forall_and_eq_or_imp, forall_and_eq_imp, Event.fn]
  all_goals simp_all

/-- C9: `git.GetPair` is called with the `CurrentPair` of the value returned by
`input.ReadState(HOME + "/.commit-config.state")`, the scope prompt with its
`CurrentScope` as default, and `input.WriteState` writes to the path that was read. -/
theorem state_seeds_defaults (w : World) :
    StatePath = ".commit-config.state" ∧
    (∀ cfg prev ms r, Event.GetPair cfg prev ms r ∈ (run w).1 →
      ∃ home st, Event.Getenv "HOME" home ∈ (run w).1 ∧
        Event.ReadState (home ++ "/" ++ StatePath) (st, none) ∈ (run w).1 ∧
        prev = st.CurrentPair) ∧
    (∀ label dflt r, Event.GetWithDefault label dflt r ∈ (run w).1 →
      ∃ home st, Event.Getenv "HOME" home ∈ (run w).1 ∧
        Event.ReadState (home ++ "/" ++ StatePath) (st, none) ∈ (run w).1 ∧
        dflt = st.CurrentScope) ∧
    (∀ path pair scope r, Event.WriteState path pair scope r ∈ (run w).1 →
      ∃ home st, Event.Getenv "HOME" home ∈ (run w).1 ∧
        Event.ReadState path (st, none) ∈ (run w).1 ∧
        path = home ++ "/" ++ StatePath) ∧
    precededBy .ReadState .GetPair (run w).1 = true ∧
    precededBy .ReadState .GetWithDefault (run w).1 = true ∧
    precededBy .ReadState .WriteState (run w).1 = true ∧
    calls .ReadState (run w).1 ≤ 1 := by
  refine run_cases w (fun r => run w = r → _) ?_ ?_ ?_ ?_ ?_ ?_ ?_ ?_ ?_ ?_ ?_ ?_ ?_ ?_ ?_ rfl
  all_goals intros
  all_goals intro hrun
  all_goals refine ⟨rfl, fun cfg prev ms r hm => ⟨w.homedir, w.state.1, ?_⟩,
    fun label dflt r hm => ⟨w.homedir, w.state.1, ?_⟩,
    fun path pair scope r hm => ⟨w.homedir, w.state.1, ?_⟩, ?_⟩
  all_goals simp_all [World.atCommit, World.atExplanation, World.atSummary,
    World.atWrite, World.atScope, World.atType, World.atPair, World.atStaging, World.atState,
    World.atSelf, World.atLookup, World.atRoster, World.atConfig, World.atChanges,
    World.atRepo, World.passedExplanation, World.passedSummary,
    World.passedWrite, World.passedScope, World.passedType, World.passedPair,
    World.passedStaging, World.passedState, World.passedSelf, World.passedRoster,
    World.passedConfig, World.passedChanges, World.passedRepo, optional_true,
    optional_false, mem_optional, any_optional, countP_optional, filterMap_optional, precededBy, precededByFrom,
    precededByFrom_append, precededByFrom_optional, Prod.ext_iff, invoked, calls, Event.fn]

/-- C10: the roster handed to `git.GetPair` is the one `input.InitTeamMembersConfig`
returned; when the current user was registered through `git.GetAndSaveNewTeamMember`, it
is still the roster that call was given, with the same length, and does not have the
newly registered member appended. -/
theorem roster_not_updated (w : World) :
    ∀ cfg prev ms r, Event.GetPair cfg prev ms r ∈ (run w).1 →
      (∃ p, Event.InitTeamMembersConfig p (ms, none) ∈ (run w).1) ∧
      calls .InitTeamMembersConfig (run w).1 = 1 ∧
      precededBy .InitTeamMembersConfig .GetPair (run w).1 = true ∧
      ∀ p a ms1 reg, Event.GetAndSaveNewTeamMember p a ms1 reg ∈ (run w).1 →
        ms = ms1 ∧ ms.length = ms1.length ∧ ms ≠ ms1 ++ [reg.1] := by
  refine run_cases w (fun r => run w = r → _) ?_ ?_ ?_ ?_ ?_ ?_ ?_ ?_ ?_ ?_ ?_ ?_ ?_ ?_ ?_ rfl
  all_goals intros
  all_goals intro hrun
  all_goals simp_all [World.atCommit, World.atExplanation, World.atSummary,
    World.atWrite, World.atScope, World.atType, World.atPair, World.atStaging, World.atState,
    World.atSelf, World.atLookup, World.atRoster, World.atConfig, World.atChanges,
    World.atRepo, World.passedExplanation, World.passedSummary,
    World.passedWrite, World.passedScope, World.passedType, World.passedPair,
    World.passedStaging, World.passedState, World.passedSelf, World.passedRoster,
    World.passedConfig, World.passedChanges, World.passedRepo, optional_true,
    optional_false, mem_optional, any_optional, countP_optional, filterMap_optional, precededBy, precededByFrom,
    precededByFrom_append, precededByFrom_optional, Prod.ext_iff, invoked, calls, Event.fn]

/-! ## The claims on example runs -/

/-- C1 on a run in a repository without changes and without the empty-commit flag. -/
theorem no_changes_exits_zero_witness :
    (quietWorld.Exists ".git").1 = true ∧ quietWorld.AreThereChanges = false ∧
    quietWorld.EmptyCommit = false ∧
    (run quietWorld).2 = .error (.exit 0) ∧
    printed (run quietWorld).1 = ["There are no changes to add!"] ∧
    invoked .InitCommitConfig (run quietWorld).1 = false ∧
    invoked .WriteState (run quietWorld).1 = false :=
  ⟨rfl, rfl, rfl, (no_changes_exits_zero quietWorld rfl rfl rfl).1,
    (no_changes_exits_zero quietWorld rfl rfl rfl).2.2.1,
    (no_changes_exits_zero quietWorld rfl rfl rfl).2.2.2 _ (by simp),
    (no_changes_exits_zero quietWorld rfl rfl rfl).2.2.2 _ (by simp)⟩

/-- C2 on a run with the empty-commit flag set. -/
theorem empty_commit_flag_selects_path_witness :
    emptyCommitWorld.EmptyCommit = true ∧
    (invoked .Add (run emptyCommitWorld).1 = false ∧
      invoked .AnythingStaged (run emptyCommitWorld).1 = false ∧
      committed (run emptyCommitWorld).1 = [] ∧
      emptyCommitted (run emptyCommitWorld).1 = builtMsgs (run emptyCommitWorld).1) ∧
    builtMsgs (run emptyCommitWorld).1 = ["fix(PROJ-42): fix login bug | it was broken"] :=
  ⟨rfl, (empty_commit_flag_selects_path emptyCommitWorld).1 rfl, by decide⟩

/-- C3 on the plain example run. -/
theorem write_state_only_after_pair_witness :
    Event.WriteState "/home/jd/.commit-config.state" [jd, ab] "PROJ-42" none
      ∈ (run demoWorld).1 ∧
    ((∃ cfg prev ms, Event.GetPair cfg prev ms ([jd, ab], none) ∈ (run demoWorld).1) ∧
      (∃ dflt, Event.GetWithDefault "Current scope" dflt ("PROJ-42", none)
        ∈ (run demoWorld).1)) :=
  ⟨by decide, (write_state_only_after_pair demoWorld).1 "/home/jd/.commit-config.state" [jd, ab]
    "PROJ-42" none (by decide)⟩

/-- C4 on the plain example run, which reaches `git.Commit`. -/
theorem write_state_once_before_commit_witness :
    (invoked .Commit (run demoWorld).1 = true ∨
      invoked .EmptyCommit (run demoWorld).1 = true) ∧
    calls .WriteState (run demoWorld).1 = 1 ∧
    precededBy .GetPair .WriteState (run demoWorld).1 = true ∧
    precededBy .WriteState .BuildCommitMsg (run demoWorld).1 = true ∧
    precededBy .WriteState .Commit (run demoWorld).1 = true :=
  ⟨Or.inl (by decide),
    (write_state_once_before_commit demoWorld (Or.inl (by decide))).1,
    (write_state_once_before_commit demoWorld (Or.inl (by decide))).2.2.2.2.1,
    (write_state_once_before_commit demoWorld (Or.inl (by decide))).2.2.2.2.2.2.1,
    (write_state_once_before_commit demoWorld (Or.inl (by decide))).2.2.2.2.2.2.2.1⟩

/-- C5 on a run whose current user is not yet in the roster. -/
theorem current_user_resolution_witness :
    Event.GetTeamMemberByAbbreviation [ab] "jd" (⟨"", "", ""⟩, some "not-found")
      ∈ (run newcomerWorld).1 ∧
    ∃ path cfg reg, Event.InitCommitConfig path (cfg, none) ∈ (run newcomerWorld).1 ∧
      "jd" = cfg.Abbreviation ∧
      Event.GetAndSaveNewTeamMember cfg.TeamMembersConfigPath cfg.Abbreviation [ab] reg
        ∈ (run newcomerWorld).1 ∧
      (reg.2 = none → ∀ me ∈ builtFor (run newcomerWorld).1, me = reg.1) ∧
      (∀ e, reg.2 = some e →
        (run newcomerWorld).2 = .error (.panic e) ∧
        invoked .ReadState (run newcomerWorld).1 = false ∧
        invoked .WriteState (run newcomerWorld).1 = false ∧
        invoked .Commit (run newcomerWorld).1 = false ∧
        invoked .EmptyCommit (run newcomerWorld).1 = false) :=
  ⟨by decide, (current_user_resolution newcomerWorld [ab] "jd" (⟨"", "", ""⟩, some "not-found")
    (by decide)).2.1 rfl⟩

/-- C6 on the plain example run. -/
theorem commit_message_is_built_witness :
    (Event.Commit "fix(PROJ-42): fix login bug | it was broken" ∈ (run demoWorld).1 ∨
      Event.EmptyCommit "fix(PROJ-42): fix login bug | it was broken"
        ∈ (run demoWorld).1) ∧
    ∃ ctype scope pair explanation me summary,
      (∃ flag, Event.GetCommitType flag (ctype, none) ∈ (run demoWorld).1) ∧
      (∃ dflt, Event.GetWithDefault "Current scope" dflt (scope, none)
        ∈ (run demoWorld).1) ∧
      (∃ cfg prev ms, Event.GetPair cfg prev ms (pair, none) ∈ (run demoWorld).1) ∧
      (∃ label, Event.GetMultiLineInput label (explanation, none) ∈ (run demoWorld).1) ∧
      (demoWorld.Message ≠ "" →
        summary = demoWorld.Message ∧ invoked .GetNonEmpty (run demoWorld).1 = false) ∧
      (demoWorld.Message = "" →
        ∃ label, Event.GetNonEmpty label (summary, none) ∈ (run demoWorld).1) ∧
      Event.ReviewSummary summary (demoWorld.ReviewSummary summary) ∈ (run demoWorld).1 ∧
      Event.BuildCommitMsg ctype scope pair (demoWorld.ReviewSummary summary) explanation me
        "fix(PROJ-42): fix login bug | it was broken" ∈ (run demoWorld).1 ∧
      "fix(PROJ-42): fix login bug | it was broken" =
        demoWorld.BuildCommitMsg ctype scope pair (demoWorld.ReviewSummary summary)
          explanation me ∧
      builtMsgs (run demoWorld).1 = ["fix(PROJ-42): fix login bug | it was broken"] :=
  ⟨Or.inl (by decide), commit_message_is_built demoWorld _ (Or.inl (by decide))⟩

/-- The calls of the example run with nothing staged. -/
theorem run_unstagedWorld :
    (run unstagedWorld).1 =
      [Event.Exists ".git" (true, none), Event.AreThereChanges true,
        Event.Getenv "HOME" "/home/jd",
        Event.InitCommitConfig "/home/jd/.commit-config" (⟨"/home/jd/team.json", "jd"⟩, none),
        Event.Debug (.config ⟨"/home/jd/team.json", "jd"⟩),
        Event.InitTeamMembersConfig "/home/jd/team.json" ([jd, ab], none),
        Event.Debug (.members [jd, ab]),
        Event.GetTeamMemberByAbbreviation [jd, ab] "jd" (jd, none),
        Event.ReadState "/home/jd/.commit-config.state" (⟨["jd", "ab"], "PROJ-42"⟩, none),
        Event.Debug (.state ⟨["jd", "ab"], "PROJ-42"⟩),
        Event.Add "-p" "", Event.AnythingStaged false,
        Event.Println "There are no staged files."] := by
  decide

/-- C7 on a run in which nothing is staged after `git.Add`. -/
theorem nothing_staged_exits_zero_witness :
    (unstagedWorld.Exists ".git").1 = true ∧ unstagedWorld.AreThereChanges = true ∧
    unstagedWorld.EmptyCommit = false ∧ unstagedWorld.AnythingStaged = false ∧
    unstagedWorld.SkipGitAdd = false ∧
    (run unstagedWorld).2 = .error (.exit 0) ∧
    printed (run unstagedWorld).1 = ["There are no staged files."] ∧
    (run unstagedWorld).1.filter (fun e => e.fn == .Add || e.fn == .AnythingStaged) =
      [Event.Add "-p" "", Event.AnythingStaged false] ∧
    invoked .GetPair (run unstagedWorld).1 = false ∧
    invoked .WriteState (run unstagedWorld).1 = false := by
  have h := nothing_staged_exits_zero unstagedWorld rfl rfl
    (by intro p r hm; rw [run_unstagedWorld] at hm; simp at hm; rw [hm.2])
    (by intro p r hm; rw [run_unstagedWorld] at hm; simp at hm; rw [hm.2])
    (by intro ms a r hm; rw [run_unstagedWorld] at hm; simp at hm; rw [hm.2.2]; exact Or.inl rfl)
    (by intro p a ms r hm; rw [run_unstagedWorld] at hm; simp at hm)
    (by intro p r hm; rw [run_unstagedWorld] at hm; simp at hm; rw [hm.2])
    rfl rfl
  exact ⟨rfl, rfl, rfl, rfl, rfl, h.1, h.2.1, h.2.2.2.1 rfl, h.2.2.2.2.2 _ (by simp),
    h.2.2.2.2.2 _ (by simp)⟩

/-- C8 on a run in which `git.GetPair` returns an error. -/
theorem checked_errors_abort_witness :
    Event.GetPair ⟨"/home/jd/team.json", "jd"⟩ ["jd", "ab"] [jd, ab]
      ([], some "team member not found") ∈ (run brokenPairWorld).1 ∧
    ((run brokenPairWorld).1.getLast? =
        some (Event.GetPair ⟨"/home/jd/team.json", "jd"⟩ ["jd", "ab"] [jd, ab]
          ([], some "team member not found")) ∧
      (run brokenPairWorld).2 = .error (.check "team member not found") ∧
      calls .GetPair (run brokenPairWorld).1 = 1 ∧
      invoked .Commit (run brokenPairWorld).1 = false ∧
      invoked .EmptyCommit (run brokenPairWorld).1 = false) :=
  ⟨by decide, checked_errors_abort brokenPairWorld _ (by decide) _ rfl⟩

/-- C9 on the plain example run. -/
theorem state_seeds_defaults_witness :
    Event.GetPair ⟨"/home/jd/team.json", "jd"⟩ ["jd", "ab"] [jd, ab] ([jd, ab], none)
      ∈ (run demoWorld).1 ∧
    ∃ home st, Event.Getenv "HOME" home ∈ (run demoWorld).1 ∧
      Event.ReadState (home ++ "/" ++ StatePath) (st, none) ∈ (run demoWorld).1 ∧
      ["jd", "ab"] = st.CurrentPair :=
  ⟨by decide, (state_seeds_defaults demoWorld).2.1 ⟨"/home/jd/team.json", "jd"⟩ ["jd", "ab"]
    [jd, ab] ([jd, ab], none) (by decide)⟩

/-- C10 on a run whose current user is not yet in the roster. -/
theorem roster_not_updated_witness :
    Event.GetPair ⟨"/home/jd/team.json", "jd"⟩ ["jd", "ab"] [ab] ([jd, ab], none)
      ∈ (run newcomerWorld).1 ∧
    Event.GetAndSaveNewTeamMember "/home/jd/team.json" "jd" [ab] (jd, none)
      ∈ (run newcomerWorld).1 ∧
    (∃ p, Event.InitTeamMembersConfig p ([ab], none) ∈ (run newcomerWorld).1) ∧
    ([ab] = [ab] ∧ [ab].length = [ab].length ∧ [ab] ≠ [ab] ++ [(jd, (none : Error)).1]) :=
  ⟨by decide, by decide,
    (roster_not_updated newcomerWorld ⟨"/home/jd/team.json", "jd"⟩ ["jd", "ab"] [ab]
      ([jd, ab], none) (by decide)).1,
    (roster_not_updated newcomerWorld ⟨"/home/jd/team.json", "jd"⟩ ["jd", "ab"] [ab]
      ([jd, ab], none) (by decide)).2.2.2 "/home/jd/team.json" "jd" [ab] (jd, none)
      (by decide)⟩

end Commit
